import Mathlib

/-!
Verification of the project import/export subsystem
(src/project_import_export.go) of previ/go-gitlab.

The subsystem is embedded shallowly: every Go `(value, err)` step of
`ImportFile` and of the four project-reference operations is reproduced,
with the fallible effects (file system, multipart writer operations, the
shared client's NewRequest/Do) supplied by explicit environment records.
The shared client helpers (`parseID`, `pathEscape`, `Stringify`,
`NewRequest`, `Do`) live elsewhere in the repository and are modelled from
the spec where noted.
-/

namespace GoGitlab

/-- A Go error value, modelled as its message string. -/
abbrev GoErr := String

/-- Outcome of a Go call: returned value, returned error, or runtime panic
(nil-pointer dereference). -/
inductive Outcome (α : Type) where
  | ok : α → Outcome α
  | err : GoErr → Outcome α
  | panics : String → Outcome α
  deriving DecidableEq, Repr

/-- One part of a multipart/form-data body: a file part (field name,
filename, byte content) or a plain field part (field name, text value). -/
inductive Part where
  | filePart (field : String) (filename : String) (content : List Nat)
  | fieldPart (field : String) (value : String)
  deriving DecidableEq, Repr

/-- The assembled multipart body: its boundary token and its parts in
writing order. -/
structure MultipartBody where
  boundary : String
  parts : List Part
  deriving DecidableEq, Repr

/-- Embedding of multipart.Writer.FormDataContentType from the Go standard
library: the content-type header value carrying the writer's boundary. -/
def formDataContentType (boundary : String) : String :=
  "multipart/form-data; boundary=" ++ boundary

/-- Embedding of strconv.FormatBool from the Go standard library. -/
def formatBool : Bool → String
  | true => "true"
  | false => "false"

/-- An HTTP request as visible to this subsystem: method, relative path,
content-type header (when set) and multipart body (when set). -/
structure Request where
  method : String
  path : String
  contentType : Option String
  body : Option MultipartBody
  deriving DecidableEq, Repr

/-- Override parameters for project creation (CreateProjectOptions), opaque
to this subsystem. -/
structure CreateProjectOptions where
  fields : String
  deriving DecidableEq, Repr

/-- Modelled from the spec: `Stringify` is a shared-client helper of this
repository that is not under src/; per the spec it renders a struct as "its
canonical structured-text representation (the same representation used for
human-readable struct dumps elsewhere in the client)", modelled as the
opaque rendering carried by the value. -/
def Stringify (o : CreateProjectOptions) : String := o.fields

/-- ImportFileOptions (src/project_import_export.go lines 167-174): every
field is a Go pointer, so absent is `none`. -/
structure ImportFileOptions where
  Namespace : Option String
  Name : Option String
  File : Option String
  Path : Option String
  Overwrite : Option Bool
  OverrideParams : Option CreateProjectOptions

/-- The effect environment of one ImportFile call: the boundary the
multipart writer draws for this encoding, the file system (path to byte
content, or an open error), an injectable Go error for each fallible
multipart-writer step (each such Go call returns a `(value, err)` pair),
and the shared client's behavior for NewRequest, SetBody and Do. -/
structure ImportEnv where
  boundary : String
  fs : String → Except GoErr (List Nat)
  createFileErr : Option GoErr
  copyErr : Option GoErr
  createNamespaceErr : Option GoErr
  writeNamespaceErr : Option GoErr
  createPathErr : Option GoErr
  writePathErr : Option GoErr
  createNameErr : Option GoErr
  writeNameErr : Option GoErr
  createOverwriteErr : Option GoErr
  writeOverwriteErr : Option GoErr
  createOverrideErr : Option GoErr
  writeOverrideErr : Option GoErr
  newRequestErr : Option GoErr
  setBodyErr : Option GoErr
  doErr : Option GoErr

/-- Result of one ImportFile call: its outcome, whether the shared client's
NewRequest and Do were invoked, and the request handed to Do (when Do was
invoked). -/
structure ImportResult where
  outcome : Outcome Unit
  newRequestCalled : Bool
  doCalled : Bool
  sentRequest : Option Request

/-- The optional-field stage of ImportFile (src lines 234-268). For each of
name, overwrite and override_params, the part is written only when the
option is set. A create error is only printed (fmt.Println) and leaves the
field writer nil, so the following fw.Write is a nil dereference; a write
error is only printed and the encoding continues. -/
def importOptionalParts (env : ImportEnv) (opt : ImportFileOptions) :
    Outcome (List Part) :=
  match opt.Name with
  | some nm =>
    match env.createNameErr with
    | some _ => Outcome.panics "write to nil multipart field writer"
    | none =>
      -- a write error is printed and ignored; the part stays in the body
      afterName [Part.fieldPart "name" nm]
  | none => afterName []
where
  afterName (ps : List Part) : Outcome (List Part) :=
    match opt.Overwrite with
    | some b =>
      match env.createOverwriteErr with
      | some _ => Outcome.panics "write to nil multipart field writer"
      | none => afterOverwrite (ps ++ [Part.fieldPart "overwrite" (formatBool b)])
    | none => afterOverwrite ps
  afterOverwrite (ps : List Part) : Outcome (List Part) :=
    match opt.OverrideParams with
    | some o =>
      match env.createOverrideErr with
      | some _ => Outcome.panics "write to nil multipart field writer"
      | none => Outcome.ok (ps ++ [Part.fieldPart "override_params" (Stringify o)])
    | none => Outcome.ok ps

/-- Shallow embedding of ProjectImportExportService.ImportFile
(src/project_import_export.go lines 180-294). The Go control flow is
reproduced step by step: `os.Open(*opt.File)` (the open error is only
printed, never returned); CreateFormFile for field "file" with literal
filename "group.*.tar.gz"; io.Copy of the file content (copying from the
nil *os.File left by a failed open yields the error "invalid argument");
the namespace and path field parts, whose create/write errors are
returned; the optional parts via importOptionalParts; Close;
NewRequest(POST, "groups/import"); SetBody; the Content-Type header from
the writer's FormDataContentType; and finally Do. -/
def ImportFile (env : ImportEnv) (opt : ImportFileOptions) : ImportResult :=
  match opt.File with
  | none => ⟨Outcome.panics "nil File dereference", false, false, none⟩
  | some fpath =>
    let openRes := env.fs fpath
    match env.createFileErr with
    | some e => ⟨Outcome.err e, false, false, none⟩
    | none =>
      let copyRes : Except GoErr (List Nat) :=
        match openRes with
        | Except.error _ => Except.error "invalid argument"
        | Except.ok content =>
          match env.copyErr with
          | some e => Except.error e
          | none => Except.ok content
      match copyRes with
      | Except.error e => ⟨Outcome.err e, false, false, none⟩
      | Except.ok content =>
        match env.createNamespaceErr with
        | some e => ⟨Outcome.err e, false, false, none⟩
        | none =>
          match opt.Namespace with
          | none => ⟨Outcome.panics "nil Namespace dereference", false, false, none⟩
          | some ns =>
            match env.writeNamespaceErr with
            | some e => ⟨Outcome.err e, false, false, none⟩
            | none =>
              match env.createPathErr with
              | some e => ⟨Outcome.err e, false, false, none⟩
              | none =>
                match opt.Path with
                | none => ⟨Outcome.panics "nil Path dereference", false, false, none⟩
                | some pa =>
                  match env.writePathErr with
                  | some e => ⟨Outcome.err e, false, false, none⟩
                  | none =>
                    match importOptionalParts env opt with
                    | Outcome.panics m => ⟨Outcome.panics m, false, false, none⟩
                    | Outcome.err e => ⟨Outcome.err e, false, false, none⟩
                    | Outcome.ok extra =>
                      -- multiPartWriter.Close(): return value ignored
                      match env.newRequestErr with
                      | some e => ⟨Outcome.err e, true, false, none⟩
                      | none =>
                        match env.setBodyErr with
                        | some e => ⟨Outcome.err e, true, false, none⟩
                        | none =>
                          let body : MultipartBody :=
                            ⟨env.boundary,
                              Part.filePart "file" "group.*.tar.gz" content ::
                              Part.fieldPart "namespace" ns ::
                              Part.fieldPart "path" pa :: extra⟩
                          let req : Request :=
                            ⟨"POST", "groups/import",
                              some (formDataContentType env.boundary), some body⟩
                          match env.doErr with
                          | some e => ⟨Outcome.err e, true, true, some req⟩
                          | none => ⟨Outcome.ok (), true, true, some req⟩

/-- A project reference as accepted by the pid parameter (Go interface
value): a numeric ID, a path-style string, or a value of any other type. -/
inductive ProjectRef where
  | intRef (n : Int)
  | strRef (s : String)
  | badRef
  deriving DecidableEq, Repr

/-- Modelled from the spec: `parseID` is a shared-client helper of this
repository that is not under src/; per the spec the project reference
"accepts either a numeric ID or an unambiguous path-style string; must be
validated and empty-rejected before use". -/
def parseID : ProjectRef → Except GoErr String
  | ProjectRef.intRef n => Except.ok (toString n)
  | ProjectRef.strRef s => if s = "" then Except.error "invalid ID" else Except.ok s
  | ProjectRef.badRef => Except.error "invalid ID"

/-- Modelled from the spec: `pathEscape` is a shared-client helper of this
repository that is not under src/; the spec's endpoint table writes the
project reference directly into the relative path as interpolated text, so
the escaping is modelled as that embedding of the reference. -/
def pathEscape (s : String) : String := s

/-- Modelled from the spec: the shared client (not under src/) exposes
NewRequest(method, path, body, options) -> Request | Error and
Do(request, responseSink) -> Response | Error; on success Do writes the
bytes the server serves into the response sink. One Transport value fixes
the behavior of both for a call. -/
structure Transport where
  newRequestErr : Option GoErr
  serve : Except GoErr (List Nat)

/-- Result of one project-reference operation: the returned value or error,
whether NewRequest and Do were invoked, and the method and relative path of
the request that was constructed (when one was). -/
structure CallResult (α : Type) where
  value : Except GoErr α
  newRequestCalled : Bool
  doCalled : Bool
  requestMethod : Option String
  requestPath : Option String

/-- The NewRequest-then-Do tail shared by the four project-reference
operations: NewRequest may fail (Do not reached); otherwise Do runs and
returns the served bytes or the transport/API error. The pair is the
returned value together with whether Do was invoked. -/
def requestAndDo (t : Transport) : Except GoErr (List Nat) × Bool :=
  match t.newRequestErr with
  | some e => (Except.error e, false)
  | none =>
    match t.serve with
    | Except.error e => (Except.error e, true)
    | Except.ok bs => (Except.ok bs, true)

/-- Shallow embedding of ProjectImportExportService.ScheduleExport
(src/project_import_export.go lines 98-111): parseID, then POST to
projects/{p}/export, then Do. -/
def ScheduleExport (t : Transport) (pid : ProjectRef) : CallResult Unit :=
  match parseID pid with
  | Except.error e => ⟨Except.error e, false, false, none, none⟩
  | Except.ok project =>
    let u := "projects/" ++ pathEscape project ++ "/export"
    let r := requestAndDo t
    ⟨r.1.map fun _ => (), true, r.2, some "POST", some u⟩

/-- Shallow embedding of ProjectImportExportService.ExportStatus
(src/project_import_export.go lines 117-136): parseID, then GET to
projects/{p}/export, then Do decoding into the snapshot (the decoded
snapshot itself is handled by the shared client's Do and abstracted). -/
def ExportStatus (t : Transport) (pid : ProjectRef) : CallResult Unit :=
  match parseID pid with
  | Except.error e => ⟨Except.error e, false, false, none, none⟩
  | Except.ok project =>
    let u := "projects/" ++ pathEscape project ++ "/export"
    let r := requestAndDo t
    ⟨r.1.map fun _ => (), true, r.2, some "GET", some u⟩

/-- Shallow embedding of ProjectImportExportService.ExportDownload
(src/project_import_export.go lines 142-161): parseID, then GET to
projects/{p}/export/download; Do fills a bytes.Buffer b with the served
bytes and the call returns b.Bytes(). -/
def ExportDownload (t : Transport) (pid : ProjectRef) : CallResult (List Nat) :=
  match parseID pid with
  | Except.error e => ⟨Except.error e, false, false, none, none⟩
  | Except.ok project =>
    let u := "projects/" ++ pathEscape project ++ "/export/download"
    let r := requestAndDo t
    ⟨r.1, true, r.2, some "GET", some u⟩

/-- Shallow embedding of ProjectImportExportService.ImportStatus
(src/project_import_export.go lines 300-319): parseID, then GET to
projects/{p}/import, then Do decoding into the snapshot (abstracted as for
ExportStatus). -/
def ImportStatus (t : Transport) (pid : ProjectRef) : CallResult Unit :=
  match parseID pid with
  | Except.error e => ⟨Except.error e, false, false, none, none⟩
  | Except.ok project =>
    let u := "projects/" ++ pathEscape project ++ "/import"
    let r := requestAndDo t
    ⟨r.1.map fun _ => (), true, r.2, some "GET", some u⟩

/-- The optional field parts an ImportFileOptions value induces, in the
order name, overwrite, override_params, each present only when set. -/
def optionalFieldParts (opt : ImportFileOptions) : List Part :=
  (opt.Name.map fun nm => Part.fieldPart "name" nm).toList ++
  (opt.Overwrite.map fun b => Part.fieldPart "overwrite" (formatBool b)).toList ++
  (opt.OverrideParams.map fun o => Part.fieldPart "override_params" (Stringify o)).toList

theorem importOptionalParts_ok (env : ImportEnv) (opt : ImportFileOptions)
    (h7 : env.createNameErr = none) (h8 : env.createOverwriteErr = none)
    (h9 : env.createOverrideErr = none) :
    importOptionalParts env opt = Outcome.ok (optionalFieldParts opt) := by
  unfold importOptionalParts importOptionalParts.afterName
    importOptionalParts.afterOverwrite optionalFieldParts
  cases hN : opt.Name <;> cases hO : opt.Overwrite <;> cases hOp : opt.OverrideParams <;>
    simp [h7, h8, h9]

theorem importFile_success_request (env : ImportEnv) (opt : ImportFileOptions)
    (f ns pa : String) (bs : List Nat)
    (hf : opt.File = some f) (hn : opt.Namespace = some ns) (hp : opt.Path = some pa)
    (hopen : env.fs f = Except.ok bs)
    (h1 : env.createFileErr = none) (h2 : env.copyErr = none)
    (h3 : env.createNamespaceErr = none) (h4 : env.writeNamespaceErr = none)
    (h5 : env.createPathErr = none) (h6 : env.writePathErr = none)
    (h7 : env.createNameErr = none) (h8 : env.createOverwriteErr = none)
    (h9 : env.createOverrideErr = none)
    (h10 : env.newRequestErr = none) (h11 : env.setBodyErr = none) :
    (ImportFile env opt).sentRequest = some
      ⟨"POST", "groups/import", some (formDataContentType env.boundary),
        some ⟨env.boundary,
          Part.filePart "file" "group.*.tar.gz" bs ::
          Part.fieldPart "namespace" ns ::
          Part.fieldPart "path" pa :: optionalFieldParts opt⟩⟩ := by
  have hopt := importOptionalParts_ok env opt h7 h8 h9
  unfold ImportFile
  rw [hf]
  simp only [hopen, h1, h2, h3, hn, h4, h5, hp, h6, hopt, h10, h11]
  cases env.doErr <;> rfl

/-- A file system for concrete runs: every path holds the two bytes 7 and 8. -/
def fsW : String → Except GoErr (List Nat) := fun _ => Except.ok [7, 8]

/-- An effect environment with no injected errors, boundary "bnd". -/
def envW : ImportEnv :=
  ⟨"bnd", fsW, none, none, none, none, none, none, none, none, none, none,
    none, none, none, none, none⟩

/-- A submission with namespace "ns", path "proj" and no optional fields. -/
def optW : ImportFileOptions :=
  ⟨some "ns", none, some "arch.tar.gz", some "proj", none, none⟩

/-- C4: for every successfully encoded import submission, the multipart
body's parts appear in the fixed order — the file part (field "file",
filename matching the pattern group.*.tar.gz) first, then namespace, then
path, then, each only when present, name, overwrite and override_params;
with no optional fields set the body holds exactly the file part and the
namespace and path field parts. -/
theorem importFile_part_order (env : ImportEnv) (opt : ImportFileOptions)
    (f ns pa : String) (bs : List Nat)
    (hf : opt.File = some f) (hn : opt.Namespace = some ns) (hp : opt.Path = some pa)
    (hopen : env.fs f = Except.ok bs)
    (h1 : env.createFileErr = none) (h2 : env.copyErr = none)
    (h3 : env.createNamespaceErr = none) (h4 : env.writeNamespaceErr = none)
    (h5 : env.createPathErr = none) (h6 : env.writePathErr = none)
    (h7 : env.createNameErr = none) (h8 : env.createOverwriteErr = none)
    (h9 : env.createOverrideErr = none)
    (h10 : env.newRequestErr = none) (h11 : env.setBodyErr = none) :
    ∃ req, (ImportFile env opt).sentRequest = some req ∧
      req.body = some ⟨env.boundary,
        Part.filePart "file" "group.*.tar.gz" bs ::
        Part.fieldPart "namespace" ns ::
        Part.fieldPart "path" pa :: optionalFieldParts opt⟩ ∧
      (opt.Name = none → opt.Overwrite = none → opt.OverrideParams = none →
        req.body = some ⟨env.boundary,
          [Part.filePart "file" "group.*.tar.gz" bs,
           Part.fieldPart "namespace" ns,
           Part.fieldPart "path" pa]⟩) := by
  refine ⟨_, importFile_success_request env opt f ns pa bs hf hn hp hopen
    h1 h2 h3 h4 h5 h6 h7 h8 h9 h10 h11, rfl, ?_⟩
  intro hN hO hOp
  simp [optionalFieldParts, hN, hO, hOp]

/-- Witness for C4 at a concrete submission with no optional fields. -/
theorem importFile_part_order_witness :
    ∃ req, (ImportFile envW optW).sentRequest = some req ∧
      req.body = some ⟨"bnd",
        Part.filePart "file" "group.*.tar.gz" [7, 8] ::
        Part.fieldPart "namespace" "ns" ::
        Part.fieldPart "path" "proj" :: optionalFieldParts optW⟩ ∧
      (optW.Name = none → optW.Overwrite = none → optW.OverrideParams = none →
        req.body = some ⟨"bnd",
          [Part.filePart "file" "group.*.tar.gz" [7, 8],
           Part.fieldPart "namespace" "ns",
           Part.fieldPart "path" "proj"]⟩) :=
  importFile_part_order envW optW "arch.tar.gz" "ns" "proj" [7, 8]
    rfl rfl rfl rfl rfl rfl rfl rfl rfl rfl rfl rfl rfl rfl rfl

/-- C5: for every successful encoding by ImportFile, the boundary token in
the Content-Type header set on the request is identical to the boundary
token of the assembled multipart body, the header being the writer's
FormDataContentType value passed through unmodified. -/
theorem importFile_boundary_consistent (env : ImportEnv) (opt : ImportFileOptions)
    (f ns pa : String) (bs : List Nat)
    (hf : opt.File = some f) (hn : opt.Namespace = some ns) (hp : opt.Path = some pa)
    (hopen : env.fs f = Except.ok bs)
    (h1 : env.createFileErr = none) (h2 : env.copyErr = none)
    (h3 : env.createNamespaceErr = none) (h4 : env.writeNamespaceErr = none)
    (h5 : env.createPathErr = none) (h6 : env.writePathErr = none)
    (h7 : env.createNameErr = none) (h8 : env.createOverwriteErr = none)
    (h9 : env.createOverrideErr = none)
    (h10 : env.newRequestErr = none) (h11 : env.setBodyErr = none) :
    ∃ req body, (ImportFile env opt).sentRequest = some req ∧
      req.body = some body ∧
      req.contentType = some (formDataContentType body.boundary) :=
  ⟨_, _, importFile_success_request env opt f ns pa bs hf hn hp hopen
    h1 h2 h3 h4 h5 h6 h7 h8 h9 h10 h11, rfl, rfl⟩

/-- Witness for C5 at a concrete submission. -/
theorem importFile_boundary_consistent_witness :
    ∃ req body, (ImportFile envW optW).sentRequest = some req ∧
      req.body = some body ∧
      req.contentType = some (formDataContentType body.boundary) :=
  importFile_boundary_consistent envW optW "arch.tar.gz" "ns" "proj" [7, 8]
    rfl rfl rfl rfl rfl rfl rfl rfl rfl rfl rfl rfl rfl rfl rfl

/-- C6: for every import submission with the overwrite flag set, the
overwrite field part's value is exactly the literal boolean text — "true"
when the flag is true, "false" when it is false — and when the flag is
unset no overwrite part is written. -/
theorem importFile_overwrite_literal (env : ImportEnv) (opt : ImportFileOptions)
    (f ns pa : String) (bs : List Nat)
    (hf : opt.File = some f) (hn : opt.Namespace = some ns) (hp : opt.Path = some pa)
    (hopen : env.fs f = Except.ok bs)
    (h1 : env.createFileErr = none) (h2 : env.copyErr = none)
    (h3 : env.createNamespaceErr = none) (h4 : env.writeNamespaceErr = none)
    (h5 : env.createPathErr = none) (h6 : env.writePathErr = none)
    (h7 : env.createNameErr = none) (h8 : env.createOverwriteErr = none)
    (h9 : env.createOverrideErr = none)
    (h10 : env.newRequestErr = none) (h11 : env.setBodyErr = none) :
    ∃ req body, (ImportFile env opt).sentRequest = some req ∧
      req.body = some body ∧
      (opt.Overwrite = some true → Part.fieldPart "overwrite" "true" ∈ body.parts) ∧
      (opt.Overwrite = some false → Part.fieldPart "overwrite" "false" ∈ body.parts) ∧
      (opt.Overwrite = none → ∀ v, Part.fieldPart "overwrite" v ∉ body.parts) := by
  refine ⟨_, _, importFile_success_request env opt f ns pa bs hf hn hp hopen
    h1 h2 h3 h4 h5 h6 h7 h8 h9 h10 h11, rfl, ?_, ?_, ?_⟩
  · intro hOv
    simp [optionalFieldParts, hOv, formatBool]
  · intro hOv
    simp [optionalFieldParts, hOv, formatBool]
  · intro hOv v
    simp only [List.mem_cons, List.mem_append, optionalFieldParts, hOv,
      Option.toList_none, Option.map_none, List.append_nil, List.nil_append,
      List.not_mem_nil, or_false]
    rintro (h | h | h | h) <;> simp_all [Option.mem_toList]

/-- Witness for C6 at a concrete submission with overwrite set to true. -/
theorem importFile_overwrite_literal_witness :
    ∃ req body,
      (ImportFile envW
        ⟨some "ns", none, some "arch.tar.gz", some "proj", some true, none⟩).sentRequest
          = some req ∧
      req.body = some body ∧
      (((⟨some "ns", none, some "arch.tar.gz", some "proj", some true, none⟩ :
          ImportFileOptions).Overwrite = some true →
        Part.fieldPart "overwrite" "true" ∈ body.parts) ∧
       ((⟨some "ns", none, some "arch.tar.gz", some "proj", some true, none⟩ :
          ImportFileOptions).Overwrite = some false →
        Part.fieldPart "overwrite" "false" ∈ body.parts) ∧
       ((⟨some "ns", none, some "arch.tar.gz", some "proj", some true, none⟩ :
          ImportFileOptions).Overwrite = none →
        ∀ v, Part.fieldPart "overwrite" v ∉ body.parts)) := by
  obtain ⟨req, body, hs, hb, hA, hB, hC⟩ :=
    importFile_overwrite_literal envW
      ⟨some "ns", none, some "arch.tar.gz", some "proj", some true, none⟩
      "arch.tar.gz" "ns" "proj" [7, 8]
      rfl rfl rfl rfl rfl rfl rfl rfl rfl rfl rfl rfl rfl rfl rfl
  exact ⟨req, body, hs, hb, hA, hB, hC⟩

/-- C7: for every byte sequence the transport serves for the download
endpoint, ExportDownload returns exactly that byte sequence, unmodified. -/
theorem exportDownload_roundtrip (t : Transport) (p : ProjectRef)
    (proj : String) (bs : List Nat)
    (hpid : parseID p = Except.ok proj)
    (hnr : t.newRequestErr = none) (hs : t.serve = Except.ok bs) :
    (ExportDownload t p).value = Except.ok bs := by
  unfold ExportDownload requestAndDo
  rw [hpid, hnr, hs]

/-- Witness for C7: a transport double serving the bytes 1, 2, 3. -/
theorem exportDownload_roundtrip_witness :
    (ExportDownload ⟨none, Except.ok [1, 2, 3]⟩ (ProjectRef.strRef "grp/proj")).value
      = Except.ok [1, 2, 3] :=
  exportDownload_roundtrip ⟨none, Except.ok [1, 2, 3]⟩ (ProjectRef.strRef "grp/proj")
    "grp/proj" [1, 2, 3] rfl rfl rfl

/-- C8: for every malformed project reference — one parseID rejects — each
of ScheduleExport, ExportStatus, ExportDownload and ImportStatus returns the
error before any request is constructed or any transport call is made. -/
theorem malformed_ref_short_circuits (t : Transport) (p : ProjectRef) (e : GoErr)
    (hpid : parseID p = Except.error e) :
    ((ScheduleExport t p).value = Except.error e ∧
     (ScheduleExport t p).newRequestCalled = false ∧
     (ScheduleExport t p).doCalled = false ∧
     (ScheduleExport t p).requestPath = none) ∧
    ((ExportStatus t p).value = Except.error e ∧
     (ExportStatus t p).newRequestCalled = false ∧
     (ExportStatus t p).doCalled = false ∧
     (ExportStatus t p).requestPath = none) ∧
    ((ExportDownload t p).value = Except.error e ∧
     (ExportDownload t p).newRequestCalled = false ∧
     (ExportDownload t p).doCalled = false ∧
     (ExportDownload t p).requestPath = none) ∧
    ((ImportStatus t p).value = Except.error e ∧
     (ImportStatus t p).newRequestCalled = false ∧
     (ImportStatus t p).doCalled = false ∧
     (ImportStatus t p).requestPath = none) := by
  unfold ScheduleExport ExportStatus ExportDownload ImportStatus
  rw [hpid]
  exact ⟨⟨rfl, rfl, rfl, rfl⟩, ⟨rfl, rfl, rfl, rfl⟩,
    ⟨rfl, rfl, rfl, rfl⟩, ⟨rfl, rfl, rfl, rfl⟩⟩

/-- Witness for C8: the empty-string project reference is rejected and no
operation touches the transport. -/
theorem malformed_ref_short_circuits_witness :
    ((ScheduleExport ⟨none, Except.ok []⟩ (ProjectRef.strRef "")).value
        = Except.error "invalid ID" ∧
     (ScheduleExport ⟨none, Except.ok []⟩ (ProjectRef.strRef "")).newRequestCalled = false ∧
     (ScheduleExport ⟨none, Except.ok []⟩ (ProjectRef.strRef "")).doCalled = false ∧
     (ScheduleExport ⟨none, Except.ok []⟩ (ProjectRef.strRef "")).requestPath = none) ∧
    ((ExportStatus ⟨none, Except.ok []⟩ (ProjectRef.strRef "")).value
        = Except.error "invalid ID" ∧
     (ExportStatus ⟨none, Except.ok []⟩ (ProjectRef.strRef "")).newRequestCalled = false ∧
     (ExportStatus ⟨none, Except.ok []⟩ (ProjectRef.strRef "")).doCalled = false ∧
     (ExportStatus ⟨none, Except.ok []⟩ (ProjectRef.strRef "")).requestPath = none) ∧
    ((ExportDownload ⟨none, Except.ok []⟩ (ProjectRef.strRef "")).value
        = Except.error "invalid ID" ∧
     (ExportDownload ⟨none, Except.ok []⟩ (ProjectRef.strRef "")).newRequestCalled = false ∧
     (ExportDownload ⟨none, Except.ok []⟩ (ProjectRef.strRef "")).doCalled = false ∧
     (ExportDownload ⟨none, Except.ok []⟩ (ProjectRef.strRef "")).requestPath = none) ∧
    ((ImportStatus ⟨none, Except.ok []⟩ (ProjectRef.strRef "")).value
        = Except.error "invalid ID" ∧
     (ImportStatus ⟨none, Except.ok []⟩ (ProjectRef.strRef "")).newRequestCalled = false ∧
     (ImportStatus ⟨none, Except.ok []⟩ (ProjectRef.strRef "")).doCalled = false ∧
     (ImportStatus ⟨none, Except.ok []⟩ (ProjectRef.strRef "")).requestPath = none) :=
  malformed_ref_short_circuits ⟨none, Except.ok []⟩ (ProjectRef.strRef "")
    "invalid ID" rfl

/-- C9: for every valid project reference, each operation issues exactly the
method and relative path of the interface table — ScheduleExport POSTs to
projects/{p}/export, ExportStatus GETs projects/{p}/export, ExportDownload
GETs projects/{p}/export/download, ImportStatus GETs projects/{p}/import —
and ImportFile POSTs to the fixed path groups/import. -/
theorem endpoint_methods_paths (t : Transport) (p : ProjectRef) (proj : String)
    (hpid : parseID p = Except.ok proj)
    (env : ImportEnv) (opt : ImportFileOptions)
    (f ns pa : String) (bs : List Nat)
    (hf : opt.File = some f) (hn : opt.Namespace = some ns) (hp : opt.Path = some pa)
    (hopen : env.fs f = Except.ok bs)
    (h1 : env.createFileErr = none) (h2 : env.copyErr = none)
    (h3 : env.createNamespaceErr = none) (h4 : env.writeNamespaceErr = none)
    (h5 : env.createPathErr = none) (h6 : env.writePathErr = none)
    (h7 : env.createNameErr = none) (h8 : env.createOverwriteErr = none)
    (h9 : env.createOverrideErr = none)
    (h10 : env.newRequestErr = none) (h11 : env.setBodyErr = none) :
    ((ScheduleExport t p).requestMethod = some "POST" ∧
     (ScheduleExport t p).requestPath
        = some ("projects/" ++ pathEscape proj ++ "/export")) ∧
    ((ExportStatus t p).requestMethod = some "GET" ∧
     (ExportStatus t p).requestPath
        = some ("projects/" ++ pathEscape proj ++ "/export")) ∧
    ((ExportDownload t p).requestMethod = some "GET" ∧
     (ExportDownload t p).requestPath
        = some ("projects/" ++ pathEscape proj ++ "/export/download")) ∧
    ((ImportStatus t p).requestMethod = some "GET" ∧
     (ImportStatus t p).requestPath
        = some ("projects/" ++ pathEscape proj ++ "/import")) ∧
    (∃ req, (ImportFile env opt).sentRequest = some req ∧
      req.method = "POST" ∧ req.path = "groups/import") := by
  refine ⟨?_, ?_, ?_, ?_,
    ⟨_, importFile_success_request env opt f ns pa bs hf hn hp hopen
      h1 h2 h3 h4 h5 h6 h7 h8 h9 h10 h11, rfl, rfl⟩⟩
  · simp [ScheduleExport, hpid]
  · simp [ExportStatus, hpid]
  · simp [ExportDownload, hpid]
  · simp [ImportStatus, hpid]

/-- Witness for C9 at the concrete reference grp/proj and a concrete
submission. -/
theorem endpoint_methods_paths_witness :
    ((ScheduleExport ⟨none, Except.ok []⟩ (ProjectRef.strRef "grp/proj")).requestMethod
        = some "POST" ∧
     (ScheduleExport ⟨none, Except.ok []⟩ (ProjectRef.strRef "grp/proj")).requestPath
        = some ("projects/" ++ pathEscape "grp/proj" ++ "/export")) ∧
    ((ExportStatus ⟨none, Except.ok []⟩ (ProjectRef.strRef "grp/proj")).requestMethod
        = some "GET" ∧
     (ExportStatus ⟨none, Except.ok []⟩ (ProjectRef.strRef "grp/proj")).requestPath
        = some ("projects/" ++ pathEscape "grp/proj" ++ "/export")) ∧
    ((ExportDownload ⟨none, Except.ok []⟩ (ProjectRef.strRef "grp/proj")).requestMethod
        = some "GET" ∧
     (ExportDownload ⟨none, Except.ok []⟩ (ProjectRef.strRef "grp/proj")).requestPath
        = some ("projects/" ++ pathEscape "grp/proj" ++ "/export/download")) ∧
    ((ImportStatus ⟨none, Except.ok []⟩ (ProjectRef.strRef "grp/proj")).requestMethod
        = some "GET" ∧
     (ImportStatus ⟨none, Except.ok []⟩ (ProjectRef.strRef "grp/proj")).requestPath
        = some ("projects/" ++ pathEscape "grp/proj" ++ "/import")) ∧
    (∃ req, (ImportFile envW optW).sentRequest = some req ∧
      req.method = "POST" ∧ req.path = "groups/import") :=
  endpoint_methods_paths ⟨none, Except.ok []⟩ (ProjectRef.strRef "grp/proj")
    "grp/proj" rfl envW optW "arch.tar.gz" "ns" "proj" [7, 8]
    rfl rfl rfl rfl rfl rfl rfl rfl rfl rfl rfl rfl rfl rfl rfl

/-- C10 (amended): ImportFile dereferences File, Namespace and Path with no
nil check, and panics whenever execution reaches the dereference: a nil File
panics unconditionally; a nil Namespace panics provided the file part was
created and the copy succeeded; a nil Path panics provided additionally the
namespace part was written — while an error returned by an earlier step
preempts a later dereference. -/
theorem importFile_nil_deref (env : ImportEnv) (opt : ImportFileOptions) :
    (opt.File = none →
      (ImportFile env opt).outcome = Outcome.panics "nil File dereference") ∧
    (∀ f bs, opt.File = some f → env.fs f = Except.ok bs →
      env.createFileErr = none → env.copyErr = none →
      env.createNamespaceErr = none → opt.Namespace = none →
      (ImportFile env opt).outcome = Outcome.panics "nil Namespace dereference") ∧
    (∀ f bs ns, opt.File = some f → env.fs f = Except.ok bs →
      env.createFileErr = none → env.copyErr = none →
      env.createNamespaceErr = none → opt.Namespace = some ns →
      env.writeNamespaceErr = none → env.createPathErr = none →
      opt.Path = none →
      (ImportFile env opt).outcome = Outcome.panics "nil Path dereference") := by
  refine ⟨?_, ?_, ?_⟩
  · intro hf
    simp [ImportFile, hf]
  · intro f bs hf hopen h1 h2 h3 hn
    simp [ImportFile, hf, hopen, h1, h2, h3, hn]
  · intro f bs ns hf hopen h1 h2 h3 hn h4 h5 hp
    simp [ImportFile, hf, hopen, h1, h2, h3, hn, h4, h5, hp]

/-- Witness for C10 (amended) at three concrete submissions, one per nil
field. -/
theorem importFile_nil_deref_witness :
    (ImportFile envW ⟨some "ns", none, none, some "proj", none, none⟩).outcome
      = Outcome.panics "nil File dereference" ∧
    (ImportFile envW ⟨none, none, some "arch.tar.gz", some "proj", none, none⟩).outcome
      = Outcome.panics "nil Namespace dereference" ∧
    (ImportFile envW ⟨some "ns", none, some "arch.tar.gz", none, none, none⟩).outcome
      = Outcome.panics "nil Path dereference" :=
  ⟨(importFile_nil_deref envW ⟨some "ns", none, none, some "proj", none, none⟩).1 rfl,
   (importFile_nil_deref envW
      ⟨none, none, some "arch.tar.gz", some "proj", none, none⟩).2.1
      "arch.tar.gz" [7, 8] rfl rfl rfl rfl rfl rfl,
   (importFile_nil_deref envW
      ⟨some "ns", none, some "arch.tar.gz", none, none, none⟩).2.2
      "arch.tar.gz" [7, 8] "ns" rfl rfl rfl rfl rfl rfl rfl rfl rfl⟩

/-- An effect environment whose file system rejects every open with "no such
file or directory"; no other injected errors. -/
def envNoFile : ImportEnv :=
  ⟨"bnd", fun _ => Except.error "no such file or directory", none, none, none,
    none, none, none, none, none, none, none, none, none, none, none, none⟩

/-- C10 counterexample: with an archive path that cannot be opened and a nil
Namespace pointer, the call does not panic — the open error is only printed,
and io.Copy from the nil file handle returns "invalid argument", which is
returned before the Namespace dereference is reached. So the claim's "for
any ImportFileOptions in which File, Namespace, or Path is nil, the call
panics" fails at this input. -/
theorem importFile_nil_namespace_no_panic :
    (⟨none, none, some "missing.tar.gz", none, none, none⟩ :
        ImportFileOptions).Namespace = none ∧
    (ImportFile envNoFile
        ⟨none, none, some "missing.tar.gz", none, none, none⟩).outcome
      = Outcome.err "invalid argument" :=
  ⟨rfl, rfl⟩

/-- C1 (code_bug evaluation): submitting with namespace present but empty
triggers no validation — ImportFile encodes a body whose namespace field
part is the empty string, invokes NewRequest and Do, and returns success,
instead of failing with a validation error before any transport call. -/
theorem importFile_empty_namespace_submits :
    (ImportFile envW
        ⟨some "", none, some "arch.tar.gz", some "proj", none, none⟩).doCalled
      = true ∧
    (ImportFile envW
        ⟨some "", none, some "arch.tar.gz", some "proj", none, none⟩).newRequestCalled
      = true ∧
    (ImportFile envW
        ⟨some "", none, some "arch.tar.gz", some "proj", none, none⟩).outcome
      = Outcome.ok () ∧
    (ImportFile envW
        ⟨some "", none, some "arch.tar.gz", some "proj", none, none⟩).sentRequest
      = some ⟨"POST", "groups/import", some (formDataContentType "bnd"),
          some ⟨"bnd", [Part.filePart "file" "group.*.tar.gz" [7, 8],
            Part.fieldPart "namespace" "", Part.fieldPart "path" "proj"]⟩⟩ :=
  ⟨rfl, rfl, rfl, rfl⟩

/-- An effect environment that injects a write error on the optional name
field part and nothing else. -/
def envNameWriteErr : ImportEnv :=
  ⟨"bnd", fsW, none, none, none, none, none, none, none, some "disk failure",
    none, none, none, none, none, none, none⟩

/-- C2 (code_bug evaluation): when writing the optional name field part
raises an error, ImportFile only prints it and continues — the call still
submits the body to the transport and returns success instead of aborting
the encoding and returning the error. -/
theorem importFile_name_write_error_swallowed :
    (ImportFile envNameWriteErr
        ⟨some "ns", some "nm", some "arch.tar.gz", some "proj", none, none⟩).outcome
      = Outcome.ok () ∧
    (ImportFile envNameWriteErr
        ⟨some "ns", some "nm", some "arch.tar.gz", some "proj", none, none⟩).doCalled
      = true ∧
    (ImportFile envNameWriteErr
        ⟨some "ns", some "nm", some "arch.tar.gz", some "proj", none, none⟩).outcome
      ≠ Outcome.err "disk failure" :=
  ⟨rfl, rfl, by decide⟩

/-- C3 (code_bug evaluation): when the archive file cannot be opened,
ImportFile does not short-circuit with the resource error — the open error
is only printed, the multipart file part is still created, and the call
returns io.Copy's "invalid argument" from reading the nil file handle
rather than the open error. -/
theorem importFile_open_error_not_short_circuited :
    (ImportFile envNoFile
        ⟨some "ns", none, some "gone.tar.gz", some "proj", none, none⟩).outcome
      = Outcome.err "invalid argument" ∧
    (ImportFile envNoFile
        ⟨some "ns", none, some "gone.tar.gz", some "proj", none, none⟩).outcome
      ≠ Outcome.err "no such file or directory" :=
  ⟨rfl, by decide⟩

end GoGitlab
